import Mathlib

/-!
Verification development for the VoiceConnect/ECHO backend
(Express + Mongoose social-audio application).

The Lean definitions below are a shallow embedding of the backend code:
Mongoose documents become Lean structures, the MongoDB collections become
lists of documents, `findOne`/`findById` become `List.find?`, pre-save hooks
become `Except`-returning functions run before a document is appended, and
each Express handler becomes a pure function from a request plus the current
store to an HTTP response plus the updated store.  ObjectIds are modelled as
`Nat` (only equality of ids is ever used by the code).  `Date` fields and the
logger are outside the model: no claim inspects them.  JSON response bodies
are modelled as association lists from field names to a small JSON-like value
type; the claims only inspect the `success` boolean, the key names, and the
`message`/`error` strings, so object- and array-valued fields are collapsed
into opaque markers.
-/

namespace SoundConnect

/-- JSON-like value appearing in a response body.  `objData` stands for any
object or array payload (e.g. a serialized document); the claims under
verification never look inside those payloads. -/
inductive JVal where
  | jbool (b : Bool)
  | jstr (s : String)
  | jnum (n : Int)
  | objData
  | jnull
deriving DecidableEq, Repr

/-- HTTP response: status code plus JSON body as an ordered association list,
mirroring the object literals passed to `res.status(...).json({...})`. -/
structure Resp where
  status : Nat
  body : List (String × JVal)
deriving DecidableEq, Repr

/-- Key names of a response body, in order. -/
def Resp.keys (r : Resp) : List String :=
  r.body.map Prod.fst

/-- Value of the `success` field of a response body, if present. -/
def Resp.successVal (r : Resp) : Option JVal :=
  (r.body.find? (fun kv => kv.fst == "success")).map Prod.snd

/-- Field names allowed by the documented response envelope
`{ success: boolean, message?: string, data?: object, error?: string }`. -/
def envelopeKeys : List String :=
  ["success", "message", "data", "error"]

/-! ## Connection model (src/unnamed/part_007, `Connection.js`) -/

/-- Status enum of `connectionSchema.status`:
`enum: ['pending', 'accepted', 'rejected', 'blocked'], default: 'pending'`. -/
inductive ConnStatus where
  | pending
  | accepted
  | rejected
  | blocked
deriving DecidableEq, Repr

/-- String rendering of the status (used in the template literal
`Connection already such-and-such` of the controller). -/
def ConnStatus.toStr : ConnStatus → String
  | .pending => "pending"
  | .accepted => "accepted"
  | .rejected => "rejected"
  | .blocked => "blocked"

/-- Connection document (`connectionSchema`).  `Date` fields
(`createdAt`, `acceptedAt`, `respondedAt`) are outside the model. -/
structure Connection where
  requesterId : Nat
  recipientId : Nat
  status : ConnStatus
  message : Option String
deriving DecidableEq, Repr

/-- First pre-save hook of the connection schema: reject self-connections
with `new Error('Cannot connect with yourself')`. -/
def connectionPreSaveSelf (c : Connection) : Except String Unit :=
  if c.requesterId == c.recipientId then
    Except.error "Cannot connect with yourself"
  else
    Except.ok ()

/-- Saving a connection document: run the pre-save hook, then insert the
document into the collection.  (The second pre-save hook only touches the
`Date` fields, which are outside the model.) -/
def saveConnection (db : List Connection) (c : Connection) :
    Except String (List Connection) :=
  match connectionPreSaveSelf c with
  | Except.error e => Except.error e
  | Except.ok _ => Except.ok (db ++ [c])

/-- Mongoose query `Connection.findOne({$or: [{requesterId: a, recipientId: b},
{requesterId: b, recipientId: a}]})` — any status, either direction. -/
def findConnectionBetween (db : List Connection) (a b : Nat) :
    Option Connection :=
  db.find? (fun c =>
    (c.requesterId == a && c.recipientId == b) ||
    (c.requesterId == b && c.recipientId == a))

/-- Mongoose query `Connection.findOne({status: 'accepted', $or: [...]})` used
by the contact controller and `Connection.areConnected`. -/
def findAcceptedConnection (db : List Connection) (a b : Nat) :
    Option Connection :=
  db.find? (fun c =>
    c.status == ConnStatus.accepted &&
    ((c.requesterId == a && c.recipientId == b) ||
     (c.requesterId == b && c.recipientId == a)))

/-! ## User model (src/backend/models/User.js, `userSchema`) -/

/-- Nested `storage.googleDriveToken` object of the user schema. -/
structure GoogleDriveToken where
  access_token : Option String
  refresh_token : Option String
  scope : Option String
  token_type : Option String
  expiry_date : Option Int
deriving DecidableEq, Repr

/-- Nested `profile` object of the user schema. -/
structure UserProfile where
  displayName : Option String
  bio : Option String
  avatar : Option String
  privateContact : Option String
  contactRevealed : Bool
deriving DecidableEq, Repr

/-- Nested `storage` object of the user schema. -/
structure UserStorage where
  preference : String
  googleDriveToken : Option GoogleDriveToken
  deviceSyncKey : Option String
deriving DecidableEq, Repr

/-- Nested `settings.notifications` object of the user schema. -/
structure NotifPrefs where
  newConnection : Bool
  contactRequest : Bool
  newPost : Bool
deriving DecidableEq, Repr

/-- Nested `settings` object of the user schema. -/
structure UserSettings where
  autoAcceptConnections : Bool
  contactRevealPolicy : String
  notifications : NotifPrefs
deriving DecidableEq, Repr

/-- Nested `stats` object of the user schema. -/
structure UserStats where
  connectionCount : Int
  postCount : Int
  audioMinutes : Int
deriving DecidableEq, Repr

/-- User document as returned by `toObject()`.  The `_id` ObjectId is the
`uid` field; `password` and the deletable nested fields are `Option` so that
the `delete` statements of `getPublicProfile` can be modelled as setting them
to `none`.  `Date` fields are outside the model. -/
structure UserObject where
  uid : Nat
  username : String
  email : String
  password : Option String
  profile : UserProfile
  storage : UserStorage
  settings : UserSettings
  stats : UserStats
  isActive : Bool
deriving DecidableEq, Repr

/-- Mongoose `User.findById`. -/
def findUserById (users : List UserObject) (uid : Nat) : Option UserObject :=
  users.find? (fun u => u.uid == uid)

/-- Method `userSchema.methods.getPublicProfile`: take the plain object and
delete `password`, `storage.googleDriveToken`, `storage.deviceSyncKey` and
`profile.privateContact`. -/
def getPublicProfile (u : UserObject) : UserObject :=
  { u with
    password := none,
    storage := { u.storage with googleDriveToken := none, deviceSyncKey := none },
    profile := { u.profile with privateContact := none } }

/-! ## connectionController.sendConnectionRequest
(src/backend/controllers/connectionController.js) -/

/-- Result of a controller call: the HTTP response together with the
connection collection after the call. -/
structure ConnCallResult where
  resp : Resp
  conns : List Connection
deriving DecidableEq, Repr

/-- Embedding of `connectionController.sendConnectionRequest`.  `reqUser` is
the authenticated user (`req.user`), `userId` the `:userId` route parameter,
`message` the request body's message.  Notification delivery and the logger
are side effects outside the model. -/
def sendConnectionRequest (users : List UserObject) (conns : List Connection)
    (reqUser : UserObject) (userId : Nat) (message : Option String) :
    ConnCallResult :=
  match findUserById users userId with
  | none =>
      { resp := { status := 404,
                  body := [("success", JVal.jbool false),
                           ("message", JVal.jstr "User not found")] },
        conns := conns }
  | some recipient =>
    if !recipient.isActive then
      { resp := { status := 404,
                  body := [("success", JVal.jbool false),
                           ("message", JVal.jstr "User not found")] },
        conns := conns }
    else if reqUser.uid == userId then
      { resp := { status := 400,
                  body := [("success", JVal.jbool false),
                           ("message", JVal.jstr "Cannot connect with yourself")] },
        conns := conns }
    else
      match findConnectionBetween conns reqUser.uid userId with
      | some existingConnection =>
          { resp := { status := 400,
                      body := [("success", JVal.jbool false),
                               ("message", JVal.jstr
                                 ("Connection already " ++ existingConnection.status.toStr))] },
            conns := conns }
      | none =>
        let connection : Connection :=
          { requesterId := reqUser.uid, recipientId := userId,
            status := ConnStatus.pending, message := message }
        match saveConnection conns connection with
        | Except.error e =>
            { resp := { status := 500,
                        body := [("success", JVal.jbool false),
                                 ("message", JVal.jstr "Failed to send connection request"),
                                 ("error", JVal.jstr e)] },
              conns := conns }
        | Except.ok conns1 =>
          if recipient.settings.autoAcceptConnections then
            let accepted := { connection with status := ConnStatus.accepted }
            match saveConnection conns accepted with
            | Except.error e =>
                { resp := { status := 500,
                            body := [("success", JVal.jbool false),
                                     ("message", JVal.jstr "Failed to send connection request"),
                                     ("error", JVal.jstr e)] },
                  conns := conns1 }
            | Except.ok conns2 =>
                { resp := { status := 200,
                            body := [("success", JVal.jbool true),
                                     ("message", JVal.jstr "Connection request accepted automatically"),
                                     ("data", JVal.objData)] },
                  conns := conns2 }
          else
            { resp := { status := 201,
                        body := [("success", JVal.jbool true),
                                 ("message", JVal.jstr "Connection request sent"),
                                 ("data", JVal.objData)] },
              conns := conns1 }

/-! ## ContactReveal model (src/backend/models/ContactReveal.js) -/

/-- Status enum of `contactRevealSchema.status`:
`enum: ['pending', 'accepted', 'rejected'], default: 'pending'`. -/
inductive RevealStatus where
  | pending
  | accepted
  | rejected
deriving DecidableEq, Repr

/-- ContactReveal document (`contactRevealSchema`); `Date` fields are outside
the model. -/
structure ContactReveal where
  requesterId : Nat
  recipientId : Nat
  status : RevealStatus
  message : Option String
deriving DecidableEq, Repr

/-- Pre-save hook of the contact-reveal schema: reject self-requests with
`new Error('Cannot request contact reveal from yourself')`. -/
def contactRevealPreSaveSelf (c : ContactReveal) : Except String Unit :=
  if c.requesterId == c.recipientId then
    Except.error "Cannot request contact reveal from yourself"
  else
    Except.ok ()

/-- Saving a contact-reveal document: pre-save hook, then insert.  (The
timestamp hook only touches `respondedAt`, outside the model.) -/
def saveContactReveal (db : List ContactReveal) (c : ContactReveal) :
    Except String (List ContactReveal) :=
  match contactRevealPreSaveSelf c with
  | Except.error e => Except.error e
  | Except.ok _ => Except.ok (db ++ [c])

/-- Static `ContactReveal.isContactRevealed(userId1, userId2)`: a `findOne`
for an accepted reveal in either direction. -/
def isContactRevealed (db : List ContactReveal) (a b : Nat) :
    Option ContactReveal :=
  db.find? (fun c =>
    c.status == RevealStatus.accepted &&
    ((c.requesterId == a && c.recipientId == b) ||
     (c.requesterId == b && c.recipientId == a)))

/-- Static `ContactReveal.findPendingRequest(requesterId, recipientId)`:
a `findOne` for a pending request in the one direction only. -/
def findPendingRequest (db : List ContactReveal) (requesterId recipientId : Nat) :
    Option ContactReveal :=
  db.find? (fun c =>
    c.requesterId == requesterId && c.recipientId == recipientId &&
    c.status == RevealStatus.pending)

/-! ## contactController.requestContactReveal (src/unnamed/part_009) -/

/-- Result of a contact-controller call: response plus the contact-reveal
collection after the call. -/
structure RevealCallResult where
  resp : Resp
  reveals : List ContactReveal
deriving DecidableEq, Repr

/-- Embedding of `contactController.requestContactReveal`.  The connection
collection is read but never written by this handler, so only the
contact-reveal collection is threaded through. -/
def requestContactReveal (users : List UserObject) (conns : List Connection)
    (reveals : List ContactReveal) (reqUser : UserObject) (userId : Nat)
    (message : Option String) : RevealCallResult :=
  match findUserById users userId with
  | none =>
      { resp := { status := 404,
                  body := [("success", JVal.jbool false),
                           ("message", JVal.jstr "User not found")] },
        reveals := reveals }
  | some recipient =>
    if !recipient.isActive then
      { resp := { status := 404,
                  body := [("success", JVal.jbool false),
                           ("message", JVal.jstr "User not found")] },
        reveals := reveals }
    else if reqUser.uid == userId then
      { resp := { status := 400,
                  body := [("success", JVal.jbool false),
                           ("message", JVal.jstr "Cannot request contact reveal from yourself")] },
        reveals := reveals }
    else
      match findAcceptedConnection conns reqUser.uid userId with
      | none =>
          { resp := { status := 400,
                      body := [("success", JVal.jbool false),
                               ("message", JVal.jstr
                                 "You must be connected with this user to request contact reveal")] },
            reveals := reveals }
      | some _ =>
        match isContactRevealed reveals reqUser.uid userId with
        | some _ =>
            { resp := { status := 400,
                        body := [("success", JVal.jbool false),
                                 ("message", JVal.jstr
                                   "Contact information is already revealed between you and this user")] },
              reveals := reveals }
        | none =>
          match findPendingRequest reveals reqUser.uid userId with
          | some _ =>
              { resp := { status := 400,
                          body := [("success", JVal.jbool false),
                                   ("message", JVal.jstr "Contact reveal request already pending")] },
                reveals := reveals }
          | none =>
            let contactReveal : ContactReveal :=
              { requesterId := reqUser.uid, recipientId := userId,
                status := RevealStatus.pending, message := message }
            match saveContactReveal reveals contactReveal with
            | Except.error e =>
                { resp := { status := 500,
                            body := [("success", JVal.jbool false),
                                     ("message", JVal.jstr "Failed to request contact reveal"),
                                     ("error", JVal.jstr e)] },
                  reveals := reveals }
            | Except.ok reveals1 =>
                { resp := { status := 201,
                            body := [("success", JVal.jbool true),
                                     ("message", JVal.jstr "Contact reveal request sent"),
                                     ("data", JVal.objData)] },
                  reveals := reveals1 }

/-! ## Comment model (commentSchema, second half of src/backend/models/User.js) -/

/-- Comment document; only the fields the depth hook reads and writes are
relevant, but the audio metadata carries the duration for the schema
validator.  `cid` models `_id`. -/
structure CommentDoc where
  cid : Nat
  postId : Nat
  authorId : Nat
  parentCommentId : Option Nat
  depth : Nat
  isActive : Bool
deriving DecidableEq, Repr

/-- Construction of a new comment document: the schema gives `depth` the
default value 0 and `isActive` the default value true. -/
def newComment (cid postId authorId : Nat) (parentCommentId : Option Nat) :
    CommentDoc :=
  { cid := cid, postId := postId, authorId := authorId,
    parentCommentId := parentCommentId, depth := 0, isActive := true }

/-- Mongoose `Comment.findById` over the comment collection. -/
def findCommentById (db : List CommentDoc) (cid : Nat) : Option CommentDoc :=
  db.find? (fun c => c.cid == cid)

/-- Pre-save depth hook of the comment schema: for a new comment with a
`parentCommentId`, look the parent up; when it exists, set
`depth = parent.depth + 1` and reject with
`new Error('Comment nesting depth cannot exceed 5 levels')` when the computed
depth exceeds 5.  When the parent lookup finds nothing, or the comment has no
parent, or the comment is not new, the document passes through unchanged. -/
def commentPreSaveDepth (db : List CommentDoc) (c : CommentDoc)
    (isNew : Bool) : Except String CommentDoc :=
  if isNew then
    match c.parentCommentId with
    | none => Except.ok c
    | some pid =>
      match findCommentById db pid with
      | none => Except.ok c
      | some parentComment =>
        let c1 := { c with depth := parentComment.depth + 1 }
        if c1.depth > 5 then
          Except.error "Comment nesting depth cannot exceed 5 levels"
        else
          Except.ok c1
  else
    Except.ok c

/-! ## Audio duration validators
(postSchema.audio.duration in src/unnamed/part_008,
commentSchema.audio.duration in src/backend/models/User.js,
AUDIO_DURATION_LIMITS in src/backend/utils/constants.js) -/

/-- Constant `AUDIO_DURATION_LIMITS.MAX_POST_DURATION` (600 seconds). -/
def MAX_POST_DURATION : ℚ := 600

/-- Constant `AUDIO_DURATION_LIMITS.MAX_COMMENT_DURATION` (120 seconds). -/
def MAX_COMMENT_DURATION : ℚ := 120

/-- Constant `AUDIO_DURATION_LIMITS.MIN_DURATION` (1 second). -/
def MIN_DURATION : ℚ := 1

/-- Mongoose validator for `postSchema.audio.duration`:
`min: [1, ...]` and `max: [600, ...]`.  A Mongoose `min` validator fails
exactly when the value is strictly below the bound, `max` exactly when it is
strictly above; durations are JS numbers, modelled as rationals. -/
def postDurationValid (duration : ℚ) : Bool :=
  decide (1 ≤ duration) && decide (duration ≤ 600)

/-- Mongoose validator for `commentSchema.audio.duration`:
`max: [120, ...]` and no `min`. -/
def commentDurationValid (duration : ℚ) : Bool :=
  decide (duration ≤ 120)

/-! ## Notification service queue
(src/backend/services/notificationService.js) -/

/-- Queued notification.  The `data` and `options` payloads and the
`status`/`createdAt` bookkeeping fields are opaque to the queue discipline
the claims are about, so only the identifying fields are modelled. -/
structure Notification where
  userId : Nat
  ntype : String
deriving DecidableEq, Repr

/-- State of the `NotificationService` singleton: the array
`this.notificationQueue`, the flag `this.isProcessing`, and — as the model's
observation of `processNotification` calls — the list of notifications
processed so far, in call order. -/
structure NotifState where
  notificationQueue : List Notification
  isProcessing : Bool
  processedLog : List Notification
deriving DecidableEq, Repr

/-- The `while (this.notificationQueue.length > 0)` loop of `processQueue`:
`shift()` removes the head of the queue and `processNotification` is awaited
on it; the loop ends when the queue is empty.  Returns the final queue
(always empty) and the extended processed log. -/
def drainQueue (queue processed : List Notification) :
    List Notification × List Notification :=
  match queue with
  | [] => ([], processed)
  | n :: rest => drainQueue rest (processed ++ [n])

/-- Embedding of `NotificationService.processQueue`: return immediately when
`isProcessing` is set or the queue is empty; otherwise set `isProcessing`,
drain the queue from the head, and reset `isProcessing` in the `finally`
block. -/
def processQueue (s : NotifState) : NotifState :=
  if s.isProcessing || s.notificationQueue.isEmpty then s
  else
    let drained := drainQueue s.notificationQueue s.processedLog
    { notificationQueue := drained.fst,
      isProcessing := false,
      processedLog := drained.snd }

/-- Embedding of `NotificationService.sendNotification`: push the new
notification onto the tail of the queue, then call `processQueue` only when
`isProcessing` is false. -/
def sendNotification (s : NotifState) (n : Notification) : NotifState :=
  let s1 := { s with notificationQueue := s.notificationQueue ++ [n] }
  if !s1.isProcessing then processQueue s1 else s1

/-! ## Error middleware (src/backend/middleware/errorMiddleware.js) -/

/-- Value of a JavaScript `err.code` property: MongoDB uses the number 11000
for duplicate keys, Node network errors and Multer use string codes. -/
inductive ErrCode where
  | num (n : Int)
  | str (s : String)
deriving DecidableEq, Repr

/-- Incoming error object as the middleware reads it.  `keyPattern` is the
list of key names of `err.keyPattern` (present on duplicate-key errors);
`validationMessages` is the list of `val.message` over
`Object.values(err.errors)` (present on validation errors). -/
structure JsErr where
  name : String
  message : String
  code : Option ErrCode
  statusCode : Option Nat
  keyPattern : List String
  validationMessages : List String
deriving DecidableEq, Repr

/-- The local `error` record the middleware rebuilds: message, optional
status code, optional `details`. -/
structure ErrInfo where
  message : String
  statusCode : Option Nat
  details : Option String
deriving DecidableEq, Repr

/-- Test whether `pat` occurs at the head of `s` (on character lists). -/
def patAtHead : List Char → List Char → Bool
  | [], _ => true
  | _ :: _, [] => false
  | a :: as, b :: bs => a == b && patAtHead as bs

/-- Test whether `pat` occurs anywhere inside `s` (on character lists). -/
def patInside (pat : List Char) : List Char → Bool
  | [] => patAtHead pat []
  | b :: bs => patAtHead pat (b :: bs) || patInside pat bs

/-- JavaScript substring test `s.includes(pat)`. -/
def strIncludes (s pat : String) : Bool :=
  patInside pat.data s.data

/-- JavaScript `x || d` on the status-code position: `undefined` and `0` are
falsy. -/
def jsOrStatus (x : Option Nat) (d : Nat) : Nat :=
  match x with
  | some n => if n == 0 then d else n
  | none => d

/-- JavaScript `s || d` on the message position: the empty string is falsy. -/
def jsOrStr (s d : String) : String :=
  if s == "" then d else s

/-- The `switch (err.code)` of the Multer branch, defaulting to
`File upload error`. -/
def multerMessage (code : Option ErrCode) : String :=
  match code with
  | some (ErrCode.str "LIMIT_FILE_SIZE") => "File size exceeds limit"
  | some (ErrCode.str "LIMIT_FILE_COUNT") => "Too many files uploaded"
  | some (ErrCode.str "LIMIT_UNEXPECTED_FILE") => "Unexpected file field"
  | some (ErrCode.str "LIMIT_FIELD_KEY") => "Field name too long"
  | some (ErrCode.str "LIMIT_FIELD_VALUE") => "Field value too long"
  | some (ErrCode.str "LIMIT_FIELD_COUNT") => "Too many form fields"
  | some (ErrCode.str "LIMIT_PART_COUNT") => "Too many parts"
  | _ => "File upload error"

/-- Duplicate-key message: first key of `err.keyPattern`, capitalized, plus
`already exists`.  (`Object.keys(...)[0]` on an empty pattern is modelled as
the empty string.) -/
def dupKeyMessage (keyPattern : List String) : String :=
  (keyPattern.headD "").capitalize ++ " already exists"

/-- The sequence of `if` statements of `errorHandler`, each of which
overwrites the whole local `error` record when its condition on `err`
matches; a later match wins.  The initial record spreads `err` (keeping its
`statusCode`) and copies `err.message`. -/
def applyErrorClauses (e : JsErr) : ErrInfo :=
  let er : ErrInfo := { message := e.message, statusCode := e.statusCode, details := none }
  let er := if e.name == "CastError" then
      { message := "Resource not found", statusCode := some 404, details := none }
    else er
  let er := if e.code == some (ErrCode.num 11000) then
      { message := dupKeyMessage e.keyPattern, statusCode := some 400, details := none }
    else er
  let er := if e.name == "ValidationError" then
      { message := String.intercalate ", " e.validationMessages,
        statusCode := some 400, details := none }
    else er
  let er := if e.name == "JsonWebTokenError" then
      { message := "Invalid token", statusCode := some 401, details := none }
    else er
  let er := if e.name == "TokenExpiredError" then
      { message := "Token expired", statusCode := some 401, details := none }
    else er
  let er := if e.name == "MulterError" then
      { message := multerMessage e.code, statusCode := some 400, details := none }
    else er
  let er := if strIncludes e.message "Google Drive" then
      { message := "Google Drive service error", statusCode := some 503,
        details := some e.message }
    else er
  let er := if e.code == some (ErrCode.str "ECONNREFUSED") ||
               e.code == some (ErrCode.str "ENOTFOUND") then
      { message := "Service unavailable", statusCode := some 503, details := none }
    else er
  let er := if e.name == "MongoNetworkError" || e.name == "MongoTimeoutError" then
      { message := "Database connection error", statusCode := some 503, details := none }
    else er
  er

/-- Embedding of the centralized `errorHandler` middleware.  `isDevelopment`
is `process.env.NODE_ENV === 'development'`; in development the spread adds
`stack` and `error` fields, and a `details` field is added whenever the
rebuilt record carries one. -/
def errorHandler (isDevelopment : Bool) (e : JsErr) : Resp :=
  let er := applyErrorClauses e
  let statusCode := jsOrStatus er.statusCode 500
  let message := jsOrStr er.message "Server Error"
  { status := statusCode,
    body := [("success", JVal.jbool false), ("message", JVal.jstr message)]
      ++ (if isDevelopment then [("stack", JVal.objData), ("error", JVal.objData)] else [])
      ++ (match er.details with
          | some d => [("details", JVal.jstr d)]
          | none => []) }

/-- Embedding of the `notFound` 404 handler. -/
def notFound (originalUrl : String) : Resp :=
  { status := 404,
    body := [("success", JVal.jbool false),
             ("message", JVal.jstr ("Route not found: " ++ originalUrl))] }

/-- Embedding of `validationErrorHandler`: on a Mongoose `ValidationError`
it responds 400 with an `errors` array of `{field, message}` objects;
otherwise it calls `next(err)`, modelled as `none`. -/
def validationErrorHandler (e : JsErr) : Option Resp :=
  if e.name == "ValidationError" then
    some { status := 400,
           body := [("success", JVal.jbool false),
                    ("message", JVal.jstr "Validation failed"),
                    ("errors", JVal.objData)] }
  else
    none

/-! ## Concrete fixtures used as inputs of the closed witness theorems -/

/-- Sample user Alice (id 1), active, no auto-accept. -/
def userA : UserObject :=
  { uid := 1, username := "alice", email := "alice@example.com",
    password := some "hashedpw",
    profile := { displayName := none, bio := none, avatar := none,
                 privateContact := some "555-0100", contactRevealed := false },
    storage := { preference := "google_drive", googleDriveToken := none,
                 deviceSyncKey := none },
    settings := { autoAcceptConnections := false, contactRevealPolicy := "manual",
                  notifications := { newConnection := true, contactRequest := true,
                                     newPost := true } },
    stats := { connectionCount := 0, postCount := 0, audioMinutes := 0 },
    isActive := true }

/-- Sample user Bob (id 2), active, no auto-accept. -/
def userB : UserObject :=
  { userA with uid := 2, username := "bob", email := "bob@example.com" }

/-- User collection holding Alice and Bob. -/
def twoUsers : List UserObject := [userA, userB]

/-- Comment at the maximal nesting depth 5, used to exercise the depth
guard. -/
def parentComment5 : CommentDoc :=
  { cid := 1, postId := 1, authorId := 1, parentCommentId := none,
    depth := 5, isActive := true }

/-- Accepted connection between Alice and Bob. -/
def acceptedAB : Connection :=
  { requesterId := 1, recipientId := 2, status := ConnStatus.accepted,
    message := none }

/-- Pending connection between Alice and Bob. -/
def pendingAB : Connection :=
  { requesterId := 1, recipientId := 2, status := ConnStatus.pending,
    message := none }

/-- Self-connection document (requester and recipient both Alice). -/
def selfConnection : Connection :=
  { requesterId := 1, recipientId := 1, status := ConnStatus.pending,
    message := none }

/-- Concrete Mongoose validation error. -/
def sampleValidationError : JsErr :=
  { name := "ValidationError", message := "Post validation failed",
    code := none, statusCode := none, keyPattern := [],
    validationMessages := ["Audio cannot exceed 10 minutes"] }

/-- Concrete error carrying a Google Drive message and its own status code,
matching none of the error classes named by the specification. -/
def googleQuotaError : JsErr :=
  { name := "Error", message := "Google Drive quota exceeded", code := none,
    statusCode := some 429, keyPattern := [], validationMessages := [] }

/-- Concrete Mongoose cast error. -/
def castError : JsErr :=
  { name := "CastError", message := "Cast to ObjectId failed", code := none,
    statusCode := none, keyPattern := [], validationMessages := [] }

/-- Two sample notifications. -/
def notifA : Notification := { userId := 1, ntype := "connection_request" }

/-- Second sample notification. -/
def notifB : Notification := { userId := 2, ntype := "new_post" }

/-! ## Theorems -/

/-- C9: for every User document, the object returned by `getPublicProfile`
contains neither the password, nor `storage.googleDriveToken`, nor
`storage.deviceSyncKey`, nor `profile.privateContact`, while all other
fields of the user object are unchanged. -/
theorem getPublicProfile_removes_only_sensitive_fields (u : UserObject) :
    (getPublicProfile u).password = none ∧
    (getPublicProfile u).storage.googleDriveToken = none ∧
    (getPublicProfile u).storage.deviceSyncKey = none ∧
    (getPublicProfile u).profile.privateContact = none ∧
    (getPublicProfile u).uid = u.uid ∧
    (getPublicProfile u).username = u.username ∧
    (getPublicProfile u).email = u.email ∧
    (getPublicProfile u).profile.displayName = u.profile.displayName ∧
    (getPublicProfile u).profile.bio = u.profile.bio ∧
    (getPublicProfile u).profile.avatar = u.profile.avatar ∧
    (getPublicProfile u).profile.contactRevealed = u.profile.contactRevealed ∧
    (getPublicProfile u).storage.preference = u.storage.preference ∧
    (getPublicProfile u).settings = u.settings ∧
    (getPublicProfile u).stats = u.stats ∧
    (getPublicProfile u).isActive = u.isActive := by
  refine ⟨rfl, rfl, rfl, rfl, rfl, rfl, rfl, rfl, rfl, rfl, rfl, rfl, rfl, rfl, rfl⟩

/-- C4: the post duration validator fails exactly when the duration is below
1 or above 600 seconds, the comment duration validator fails exactly when the
duration is above 120 seconds, and durations within those bounds pass the
respective checks. -/
theorem audio_duration_limits (d : ℚ) :
    (postDurationValid d = false ↔ (d < 1 ∨ 600 < d)) ∧
    (commentDurationValid d = false ↔ 120 < d) ∧
    (1 ≤ d → d ≤ 600 → postDurationValid d = true) ∧
    (d ≤ 120 → commentDurationValid d = true) := by
  refine ⟨?_, ?_, ?_, ?_⟩
  · simp only [postDurationValid, Bool.and_eq_false_iff,
      decide_eq_false_iff_not, not_le]
  · simp only [commentDurationValid, decide_eq_false_iff_not, not_le]
  · intro h1 h2
    simp [postDurationValid, h1, h2]
  · intro h
    simp [commentDurationValid, h]

/-- Witness for the duration-limit theorem at 300-second and 60-second
clips. -/
theorem audio_duration_limits_witness :
    postDurationValid 300 = true ∧ commentDurationValid 60 = true :=
  ⟨(audio_duration_limits 300).2.2.1 (by norm_num) (by norm_num),
   (audio_duration_limits 60).2.2.2 (by norm_num)⟩

/-- C3: for every new comment whose parent is found in the store, the
pre-save hook sets the depth to the parent's depth plus one and rejects the
save exactly when that depth exceeds 5; a new comment with no parent is saved
with the schema default depth 0; and every comment the hook accepts (starting
from the default depth) has depth at most 5. -/
theorem comment_depth_limit (db : List CommentDoc) (c : CommentDoc)
    (cid postId authorId : Nat) :
    (∀ pid parentComment, c.parentCommentId = some pid →
        findCommentById db pid = some parentComment →
        ((5 < parentComment.depth + 1 →
            commentPreSaveDepth db c true =
              Except.error "Comment nesting depth cannot exceed 5 levels") ∧
         (parentComment.depth + 1 ≤ 5 →
            commentPreSaveDepth db c true =
              Except.ok { c with depth := parentComment.depth + 1 }))) ∧
    (commentPreSaveDepth db (newComment cid postId authorId none) true =
        Except.ok (newComment cid postId authorId none) ∧
      (newComment cid postId authorId none).depth = 0) ∧
    (∀ c1, c.depth = 0 → commentPreSaveDepth db c true = Except.ok c1 →
        c1.depth ≤ 5) := by
  refine ⟨?_, ?_, ?_⟩
  · intro pid parentComment hp hf
    constructor
    · intro hgt
      simp only [commentPreSaveDepth, if_pos trivial, hp, hf]
      simp [hgt]
    · intro hle
      simp only [commentPreSaveDepth, if_pos trivial, hp, hf]
      simp
      omega
  · exact ⟨rfl, rfl⟩
  · intro c1 h0 hok
    by_cases hp : c.parentCommentId = none
    · simp only [commentPreSaveDepth, if_pos trivial, hp] at hok
      cases hok
      omega
    · obtain ⟨pid, hpid⟩ := Option.ne_none_iff_exists'.mp hp
      by_cases hf : findCommentById db pid = none
      · simp only [commentPreSaveDepth, if_pos trivial, hpid, hf] at hok
        cases hok
        omega
      · obtain ⟨parentComment, hpc⟩ := Option.ne_none_iff_exists'.mp hf
        simp only [commentPreSaveDepth, if_pos trivial, hpid, hpc] at hok
        by_cases hd : parentComment.depth + 1 > 5
        · simp [hd] at hok
        · rw [if_neg hd] at hok
          cases hok
          simp only [gt_iff_lt, not_lt] at hd
          simpa using hd

/-- Witness for the depth theorem: a reply to a depth-5 comment is rejected,
and a fresh top-level comment is saved with depth 0. -/
theorem comment_depth_limit_witness :
    commentPreSaveDepth [parentComment5] (newComment 2 1 1 (some 1)) true =
      Except.error "Comment nesting depth cannot exceed 5 levels" ∧
    commentPreSaveDepth [parentComment5] (newComment 3 1 1 none) true =
      Except.ok (newComment 3 1 1 none) :=
  ⟨((comment_depth_limit [parentComment5] (newComment 2 1 1 (some 1)) 3 1 1).1
      1 parentComment5 rfl (by decide)).1 (by decide),
   ((comment_depth_limit [parentComment5] (newComment 3 1 1 none) 3 1 1).2.1).1⟩

/-- C10: a new comment whose `parentCommentId` does not match any stored
comment passes the pre-save hook unchanged and keeps the default depth 0. -/
theorem orphan_parent_comment_saved (db : List CommentDoc)
    (cid postId authorId pid : Nat) :
    findCommentById db pid = none →
    commentPreSaveDepth db (newComment cid postId authorId (some pid)) true =
      Except.ok (newComment cid postId authorId (some pid)) ∧
    (newComment cid postId authorId (some pid)).depth = 0 := by
  intro hf
  refine ⟨?_, rfl⟩
  simp [commentPreSaveDepth, newComment, hf]

/-- Witness for the orphan-parent theorem: parent id 7 is absent from a
one-comment store. -/
theorem orphan_parent_comment_saved_witness :
    commentPreSaveDepth [parentComment5] (newComment 2 1 1 (some 7)) true =
      Except.ok (newComment 2 1 1 (some 7)) :=
  (orphan_parent_comment_saved [parentComment5] 2 1 1 7 (by decide)).1

/-- Helper: appending a connection between `a` and `b` to a store with no
connection between them makes the pair lookup find exactly that document. -/
theorem findConnectionBetween_append_self (conns : List Connection)
    (a b : Nat) (c : Connection) (hr : c.requesterId = a)
    (hc : c.recipientId = b)
    (hnone : findConnectionBetween conns a b = none) :
    findConnectionBetween (conns ++ [c]) a b = some c := by
  unfold findConnectionBetween at hnone ⊢
  rw [List.find?_append, hnone]
  simp [List.find?, hr, hc]

/-- C2: the connection pre-save hook rejects any document whose requester
equals its recipient (so the no-self-connection invariant is preserved by
every successful save), and `sendConnectionRequest` returns HTTP 400 with
success false and an unchanged store when the authenticated user targets
their own id. -/
theorem no_self_connection_saved (db conns : List Connection)
    (c : Connection) (users : List UserObject) (reqUser u : UserObject)
    (message : Option String) :
    (c.requesterId = c.recipientId →
        saveConnection db c = Except.error "Cannot connect with yourself") ∧
    (∀ db1, saveConnection db c = Except.ok db1 →
        (∀ d ∈ db, d.requesterId ≠ d.recipientId) →
        ∀ d ∈ db1, d.requesterId ≠ d.recipientId) ∧
    (findUserById users reqUser.uid = some u → u.isActive = true →
        (sendConnectionRequest users conns reqUser reqUser.uid message).resp.status = 400 ∧
        (sendConnectionRequest users conns reqUser reqUser.uid message).resp.successVal =
          some (JVal.jbool false) ∧
        (sendConnectionRequest users conns reqUser reqUser.uid message).conns = conns) := by
  refine ⟨?_, ?_, ?_⟩
  · intro h
    simp [saveConnection, connectionPreSaveSelf, h]
  · intro db1 hok hinv d hd
    by_cases hcc : c.requesterId == c.recipientId
    · simp [saveConnection, connectionPreSaveSelf, hcc] at hok
    · simp [saveConnection, connectionPreSaveSelf, hcc] at hok
      subst hok
      rcases List.mem_append.mp hd with h | h
      · exact hinv d h
      · simp only [List.mem_singleton] at h
        subst h
        simpa using hcc
  · intro hfind hact
    refine ⟨?_, ?_, ?_⟩ <;>
      simp [sendConnectionRequest, hfind, hact, Resp.successVal, List.find?]

/-- Witness for the self-connection theorem: saving a self-connection fails,
and Alice targeting her own id gets HTTP 400. -/
theorem no_self_connection_saved_witness :
    saveConnection [] selfConnection =
      Except.error "Cannot connect with yourself" ∧
    (sendConnectionRequest twoUsers [] userA 1 none).resp.status = 400 :=
  ⟨(no_self_connection_saved [] [] selfConnection twoUsers userA userA none).1
      rfl,
   ((no_self_connection_saved [] [] selfConnection twoUsers userA userA none).2.2
      (by decide) rfl).1⟩

/-- C5: when a connection document between the two users already exists in
either direction and any status, `sendConnectionRequest` answers HTTP 400
with success false and leaves the store unchanged; consequently a second
request after a successful one (201 pending, or 200 auto-accepted) answers
400. -/
theorem duplicate_connection_request_rejected (users : List UserObject)
    (conns : List Connection) (reqUser recipient : UserObject) (userId : Nat)
    (message message2 : Option String) :
    (findUserById users userId = some recipient → recipient.isActive = true →
        findConnectionBetween conns reqUser.uid userId ≠ none →
        (sendConnectionRequest users conns reqUser userId message).resp.status = 400 ∧
        (sendConnectionRequest users conns reqUser userId message).resp.successVal =
          some (JVal.jbool false) ∧
        (sendConnectionRequest users conns reqUser userId message).conns = conns) ∧
    (findUserById users userId = some recipient → recipient.isActive = true →
        ((sendConnectionRequest users conns reqUser userId message).resp.status = 201 ∨
          (sendConnectionRequest users conns reqUser userId message).resp.status = 200) →
        (sendConnectionRequest users
            (sendConnectionRequest users conns reqUser userId message).conns
            reqUser userId message2).resp.status = 400) := by
  constructor
  · intro hfind hact hex
    by_cases hself : reqUser.uid == userId
    · refine ⟨?_, ?_, ?_⟩ <;>
        simp [sendConnectionRequest, hfind, hact, hself, Resp.successVal,
          List.find?]
    · obtain ⟨ex, hx⟩ := Option.ne_none_iff_exists'.mp hex
      refine ⟨?_, ?_, ?_⟩ <;>
        simp [sendConnectionRequest, hfind, hact, hself, hx, Resp.successVal,
          List.find?]
  · intro hfind hact hstat
    by_cases hself : reqUser.uid == userId
    · exfalso
      simp [sendConnectionRequest, hfind, hact, hself] at hstat
    · cases hfc : findConnectionBetween conns reqUser.uid userId with
      | some ex =>
          exfalso
          simp [sendConnectionRequest, hfind, hact, hself, hfc] at hstat
      | none =>
        by_cases hauto : recipient.settings.autoAcceptConnections
        · have hconns : (sendConnectionRequest users conns reqUser userId message).conns =
              conns ++ [{ requesterId := reqUser.uid, recipientId := userId,
                          status := ConnStatus.accepted, message := message }] := by
            simp [sendConnectionRequest, hfind, hact, hself, hfc,
              saveConnection, connectionPreSaveSelf, hauto]
          rw [hconns]
          have hfb := findConnectionBetween_append_self conns reqUser.uid userId
            { requesterId := reqUser.uid, recipientId := userId,
              status := ConnStatus.accepted, message := message } rfl rfl hfc
          simp [sendConnectionRequest, hfind, hact, hself, hfb]
        · have hconns : (sendConnectionRequest users conns reqUser userId message).conns =
              conns ++ [{ requesterId := reqUser.uid, recipientId := userId,
                          status := ConnStatus.pending, message := message }] := by
            simp [sendConnectionRequest, hfind, hact, hself, hfc,
              saveConnection, connectionPreSaveSelf, hauto]
          rw [hconns]
          have hfb := findConnectionBetween_append_self conns reqUser.uid userId
            { requesterId := reqUser.uid, recipientId := userId,
              status := ConnStatus.pending, message := message } rfl rfl hfc
          simp [sendConnectionRequest, hfind, hact, hself, hfb]

/-- Witness for the duplicate-request theorem: with a pending Alice-to-Bob
document already stored, Alice's request to Bob answers 400 and the store is
unchanged. -/
theorem duplicate_connection_request_rejected_witness :
    (sendConnectionRequest twoUsers [pendingAB] userA 2 none).resp.status = 400 ∧
    (sendConnectionRequest twoUsers [pendingAB] userA 2 none).conns = [pendingAB] :=
  ⟨((duplicate_connection_request_rejected twoUsers [pendingAB] userA userB 2
      none none).1 (by decide) rfl (by decide)).1,
   ((duplicate_connection_request_rejected twoUsers [pendingAB] userA userB 2
      none none).1 (by decide) rfl (by decide)).2.2⟩

/-- C1: an authenticated contact-reveal request towards an existing, active,
distinct user with whom no accepted connection exists answers HTTP 400 with
success false and creates no ContactReveal document; and a 201 answer occurs
only when an accepted connection between the two users exists. -/
theorem contact_reveal_requires_connection (users : List UserObject)
    (conns : List Connection) (reveals : List ContactReveal)
    (reqUser recipient : UserObject) (userId : Nat) (message : Option String) :
    (findUserById users userId = some recipient → recipient.isActive = true →
        reqUser.uid ≠ userId →
        findAcceptedConnection conns reqUser.uid userId = none →
        (requestContactReveal users conns reveals reqUser userId message).resp.status = 400 ∧
        (requestContactReveal users conns reveals reqUser userId message).resp.successVal =
          some (JVal.jbool false) ∧
        (requestContactReveal users conns reveals reqUser userId message).reveals =
          reveals) ∧
    ((requestContactReveal users conns reveals reqUser userId message).resp.status = 201 →
        ∃ cn, findAcceptedConnection conns reqUser.uid userId = some cn) := by
  constructor
  · intro hfind hact hne hconn
    have hself : (reqUser.uid == userId) = false := by
      simpa using hne
    refine ⟨?_, ?_, ?_⟩ <;>
      simp [requestContactReveal, hfind, hact, hself, hconn, Resp.successVal,
        List.find?]
  · intro h
    cases hconn : findAcceptedConnection conns reqUser.uid userId with
    | some cn => exact ⟨cn, rfl⟩
    | none =>
      exfalso
      cases hfind : findUserById users userId with
      | none => simp [requestContactReveal, hfind] at h
      | some r =>
        by_cases hact : r.isActive
        · by_cases hself : reqUser.uid == userId
          · simp [requestContactReveal, hfind, hact, hself] at h
          · simp [requestContactReveal, hfind, hact, hself, hconn] at h
        · simp [requestContactReveal, hfind, hact] at h

/-- Witness for the contact-reveal gate: Alice and Bob exist but are not
connected, so Alice's reveal request towards Bob answers 400 and stores
nothing. -/
theorem contact_reveal_requires_connection_witness :
    (requestContactReveal twoUsers [] [] userA 2 none).resp.status = 400 ∧
    (requestContactReveal twoUsers [] [] userA 2 none).reveals = [] :=
  ⟨((contact_reveal_requires_connection twoUsers [] [] userA userB 2 none).1
      (by decide) rfl (by decide) rfl).1,
   ((contact_reveal_requires_connection twoUsers [] [] userA userB 2 none).1
      (by decide) rfl (by decide) rfl).2.2⟩

/-- Helper: the drain loop empties the queue and appends its contents, in
order, to the processed log. -/
theorem drainQueue_eq (queue processed : List Notification) :
    drainQueue queue processed = ([], processed ++ queue) := by
  induction queue generalizing processed with
  | nil => simp [drainQueue]
  | cons n rest ih => simp [drainQueue, ih]

/-- C8: `sendNotification` appends to the tail of the queue and only invokes
`processQueue` when `isProcessing` is false; `processQueue` returns
immediately when `isProcessing` is set or the queue is empty, and otherwise
drains the queue from the head — processing notifications in enqueue order —
ending with an empty queue and `isProcessing` reset to false. -/
theorem notification_queue_fifo (s : NotifState) (n : Notification) :
    (s.isProcessing = true →
        sendNotification s n =
          { s with notificationQueue := s.notificationQueue ++ [n] }) ∧
    (s.isProcessing = true ∨ s.notificationQueue = [] → processQueue s = s) ∧
    (s.isProcessing = false → s.notificationQueue ≠ [] →
        processQueue s =
          { notificationQueue := [], isProcessing := false,
            processedLog := s.processedLog ++ s.notificationQueue }) ∧
    (s.isProcessing = false →
        sendNotification s n =
          { notificationQueue := [], isProcessing := false,
            processedLog := s.processedLog ++ (s.notificationQueue ++ [n]) }) := by
  refine ⟨?_, ?_, ?_, ?_⟩
  · intro h
    simp [sendNotification, h]
  · intro h
    rcases h with h | h <;> simp [processQueue, h]
  · intro h1 h2
    simp [processQueue, h1, h2, drainQueue_eq]
  · intro h
    simp [sendNotification, processQueue, h, drainQueue_eq]

/-- Witness for the queue theorem: an idle service with one queued
notification processes both, in enqueue order, on the next send. -/
theorem notification_queue_fifo_witness :
    sendNotification
        { notificationQueue := [notifA], isProcessing := false,
          processedLog := [] } notifB =
      { notificationQueue := [], isProcessing := false,
        processedLog := [notifA, notifB] } :=
  (notification_queue_fifo
      { notificationQueue := [notifA], isProcessing := false,
        processedLog := [] } notifB).2.2.2 rfl

/-- C6 counterexample: the validation error handler emits an `errors` field,
which lies outside the documented envelope
`{ success, message?, data?, error? }`. -/
theorem response_envelope_counterexample :
    (validationErrorHandler sampleValidationError).map Resp.keys =
      some ["success", "message", "errors"] ∧
    "errors" ∉ envelopeKeys := by
  exact ⟨rfl, by decide⟩

/-- C6 (amended): every modelled JSON response carries a boolean `success`
field; controller responses and the 404 handler use only the envelope keys;
the centralized error handler uses only envelope keys outside development
when no `details` field is attached (it adds `stack` and `error` in
development and `details` for Google Drive errors); the validation error
handler additionally emits an `errors` field. -/
theorem response_envelope_amended (users : List UserObject)
    (conns : List Connection) (reveals : List ContactReveal)
    (reqUser : UserObject) (userId : Nat) (message : Option String)
    (url : String) (isDevelopment : Bool) (e : JsErr) :
    (∀ k ∈ (sendConnectionRequest users conns reqUser userId message).resp.keys,
        k ∈ envelopeKeys) ∧
    ((sendConnectionRequest users conns reqUser userId message).resp.successVal =
        some (JVal.jbool true) ∨
      (sendConnectionRequest users conns reqUser userId message).resp.successVal =
        some (JVal.jbool false)) ∧
    (∀ k ∈ (requestContactReveal users conns reveals reqUser userId message).resp.keys,
        k ∈ envelopeKeys) ∧
    ((requestContactReveal users conns reveals reqUser userId message).resp.successVal =
        some (JVal.jbool true) ∨
      (requestContactReveal users conns reveals reqUser userId message).resp.successVal =
        some (JVal.jbool false)) ∧
    (∀ k ∈ (notFound url).keys, k ∈ envelopeKeys) ∧
    ((notFound url).successVal = some (JVal.jbool false)) ∧
    ((errorHandler isDevelopment e).successVal = some (JVal.jbool false)) ∧
    (isDevelopment = false → (applyErrorClauses e).details = none →
        ∀ k ∈ (errorHandler isDevelopment e).keys, k ∈ envelopeKeys) ∧
    (∀ r, validationErrorHandler e = some r →
        r.successVal = some (JVal.jbool false) ∧
        ∀ k ∈ r.keys, k ∈ envelopeKeys ++ ["errors"]) := by
  refine ⟨?_, ?_, ?_, ?_, ?_, ?_, ?_, ?_, ?_⟩
  · intro k hk
    unfold sendConnectionRequest at hk
    repeat' (first | split at hk | dsimp only at hk)
    all_goals simp [Resp.keys, envelopeKeys] at hk ⊢
    all_goals tauto
  · unfold sendConnectionRequest
    repeat' (first | split | dsimp only)
    all_goals simp [Resp.successVal, List.find?]
  · intro k hk
    unfold requestContactReveal at hk
    repeat' (first | split at hk | dsimp only at hk)
    all_goals simp [Resp.keys, envelopeKeys] at hk ⊢
    all_goals tauto
  · unfold requestContactReveal
    repeat' (first | split | dsimp only)
    all_goals simp [Resp.successVal, List.find?]
  · intro k hk
    simp [notFound, Resp.keys, envelopeKeys] at hk ⊢
    tauto
  · rfl
  · simp [errorHandler, Resp.successVal, List.find?]
  · intro h1 h2
    intro k hk
    simp [errorHandler, h1, h2, Resp.keys, envelopeKeys] at hk ⊢
    tauto
  · intro r hr
    by_cases hname : e.name == "ValidationError"
    · simp [validationErrorHandler, hname] at hr
      subst hr
      refine ⟨rfl, ?_⟩
      intro k hk
      simp [Resp.keys, envelopeKeys] at hk ⊢
      tauto
    · simp [validationErrorHandler, hname] at hr

/-- Witness for the amended envelope theorem: the validation error handler's
own response on a concrete validation error has success false. -/
theorem response_envelope_amended_witness :
    ({ status := 400,
       body := [("success", JVal.jbool false),
                ("message", JVal.jstr "Validation failed"),
                ("errors", JVal.objData)] } : Resp).successVal =
      some (JVal.jbool false) :=
  ((response_envelope_amended [] [] [] userA 2 none "/nope" false
      sampleValidationError).2.2.2.2.2.2.2.2 _ rfl).1

/-- C7 counterexample: an error matching none of the enumerated classes
(Cast/duplicate-key/Validation/JWT/Multer) but whose message mentions Google
Drive is mapped to 503, not to its own `statusCode` (429). -/
theorem errorHandler_claim_counterexample :
    googleQuotaError.name ≠ "CastError" ∧
    googleQuotaError.name ≠ "ValidationError" ∧
    googleQuotaError.name ≠ "JsonWebTokenError" ∧
    googleQuotaError.name ≠ "TokenExpiredError" ∧
    googleQuotaError.name ≠ "MulterError" ∧
    googleQuotaError.code ≠ some (ErrCode.num 11000) ∧
    googleQuotaError.statusCode = some 429 ∧
    (errorHandler false googleQuotaError).status = 503 := by
  refine ⟨by decide, by decide, by decide, by decide, by decide, by decide,
    rfl, by decide⟩

/-- C7 (amended): the centralized error middleware maps CastError to 404,
duplicate-key code 11000 to 400, ValidationError to 400, JsonWebTokenError
and TokenExpiredError to 401, MulterError to 400, Google-Drive-message
errors to 503, network codes ECONNREFUSED/ENOTFOUND to 503, Mongo
network/timeout errors to 503, and any error matching none of these to its
own `statusCode` or 500, always with success false — where each clause's
status is stated under the proviso that no later-checked clause also
matches, since the checks run in sequence and a later match overwrites an
earlier one. -/
theorem errorHandler_status_mapping (isDevelopment : Bool) (e : JsErr) :
    (("success", JVal.jbool false) ∈ (errorHandler isDevelopment e).body) ∧
    (e.name = "CastError" →
        (e.code == some (ErrCode.num 11000)) = false →
        strIncludes e.message "Google Drive" = false →
        (e.code == some (ErrCode.str "ECONNREFUSED") ||
          e.code == some (ErrCode.str "ENOTFOUND")) = false →
        (errorHandler isDevelopment e).status = 404) ∧
    (e.code = some (ErrCode.num 11000) →
        (e.name == "ValidationError") = false →
        (e.name == "JsonWebTokenError") = false →
        (e.name == "TokenExpiredError") = false →
        (e.name == "MulterError") = false →
        strIncludes e.message "Google Drive" = false →
        (e.name == "MongoNetworkError") = false →
        (e.name == "MongoTimeoutError") = false →
        (errorHandler isDevelopment e).status = 400) ∧
    (e.name = "ValidationError" →
        strIncludes e.message "Google Drive" = false →
        (e.code == some (ErrCode.str "ECONNREFUSED") ||
          e.code == some (ErrCode.str "ENOTFOUND")) = false →
        (errorHandler isDevelopment e).status = 400) ∧
    (e.name = "JsonWebTokenError" →
        strIncludes e.message "Google Drive" = false →
        (e.code == some (ErrCode.str "ECONNREFUSED") ||
          e.code == some (ErrCode.str "ENOTFOUND")) = false →
        (errorHandler isDevelopment e).status = 401) ∧
    (e.name = "TokenExpiredError" →
        strIncludes e.message "Google Drive" = false →
        (e.code == some (ErrCode.str "ECONNREFUSED") ||
          e.code == some (ErrCode.str "ENOTFOUND")) = false →
        (errorHandler isDevelopment e).status = 401) ∧
    (e.name = "MulterError" →
        strIncludes e.message "Google Drive" = false →
        (e.code == some (ErrCode.str "ECONNREFUSED") ||
          e.code == some (ErrCode.str "ENOTFOUND")) = false →
        (errorHandler isDevelopment e).status = 400) ∧
    (strIncludes e.message "Google Drive" = true →
        (e.code == some (ErrCode.str "ECONNREFUSED") ||
          e.code == some (ErrCode.str "ENOTFOUND")) = false →
        (e.name == "MongoNetworkError") = false →
        (e.name == "MongoTimeoutError") = false →
        (errorHandler isDevelopment e).status = 503) ∧
    ((e.code == some (ErrCode.str "ECONNREFUSED") ||
        e.code == some (ErrCode.str "ENOTFOUND")) = true →
        (e.name == "MongoNetworkError") = false →
        (e.name == "MongoTimeoutError") = false →
        (errorHandler isDevelopment e).status = 503) ∧
    ((e.name == "MongoNetworkError") = true ∨
        (e.name == "MongoTimeoutError") = true →
        (errorHandler isDevelopment e).status = 503) ∧
    ((e.name == "CastError") = false →
        (e.code == some (ErrCode.num 11000)) = false →
        (e.name == "ValidationError") = false →
        (e.name == "JsonWebTokenError") = false →
        (e.name == "TokenExpiredError") = false →
        (e.name == "MulterError") = false →
        strIncludes e.message "Google Drive" = false →
        (e.code == some (ErrCode.str "ECONNREFUSED") ||
          e.code == some (ErrCode.str "ENOTFOUND")) = false →
        (e.name == "MongoNetworkError") = false →
        (e.name == "MongoTimeoutError") = false →
        (errorHandler isDevelopment e).status = jsOrStatus e.statusCode 500) := by
  refine ⟨?_, ?_, ?_, ?_, ?_, ?_, ?_, ?_, ?_, ?_, ?_⟩
  · simp [errorHandler]
  · intro h1 h2 h3 h4
    simp only [Bool.or_eq_false_iff] at h4
    simp [errorHandler, applyErrorClauses, jsOrStatus, h1, h2, h3, h4.1, h4.2]
  · intro h1 h2 h3 h4 h5 h6 h7 h8
    simp [errorHandler, applyErrorClauses, jsOrStatus, h1, h2, h3, h4, h5,
      h6, h7, h8]
  · intro h1 h2 h3
    simp only [Bool.or_eq_false_iff] at h3
    simp [errorHandler, applyErrorClauses, jsOrStatus, h1, h2, h3.1, h3.2]
  · intro h1 h2 h3
    simp only [Bool.or_eq_false_iff] at h3
    simp [errorHandler, applyErrorClauses, jsOrStatus, h1, h2, h3.1, h3.2]
  · intro h1 h2 h3
    simp only [Bool.or_eq_false_iff] at h3
    simp [errorHandler, applyErrorClauses, jsOrStatus, h1, h2, h3.1, h3.2]
  · intro h1 h2 h3
    simp only [Bool.or_eq_false_iff] at h3
    simp [errorHandler, applyErrorClauses, jsOrStatus, h1, h2, h3.1, h3.2]
  · intro h1 h2 h3 h4
    simp only [Bool.or_eq_false_iff] at h2
    simp [errorHandler, applyErrorClauses, jsOrStatus, h1, h2.1, h2.2, h3, h4]
  · intro h1 h2 h3
    rcases Bool.or_eq_true_iff.mp h1 with hb | hb <;>
      simp [errorHandler, applyErrorClauses, jsOrStatus, hb, h2, h3]
  · intro h1
    rcases h1 with hb | hb <;>
      simp [errorHandler, applyErrorClauses, jsOrStatus, hb]
  · intro h1 h2 h3 h4 h5 h6 h7 h8 h9 h10
    simp only [Bool.or_eq_false_iff] at h8
    simp [errorHandler, applyErrorClauses, h1, h2, h3, h4, h5, h6, h7,
      h8.1, h8.2, h9, h10]

/-- Witness for the status-mapping theorem: a plain CastError is answered
with HTTP 404. -/
theorem errorHandler_status_mapping_witness :
    (errorHandler false castError).status = 404 :=
  (errorHandler_status_mapping false castError).2.1 rfl (by decide)
    (by decide) (by decide)

end SoundConnect
